import Mathlib

/-!
# BlobyCS/web: token lifecycle, now-playing handler and progress interpolation

A shallow embedding of `src/server.js` (token store, token lifecycle, the
`/spotify/now-playing` and `/spotify/logout` handlers) and of the progress
loop of `src/scripts/script.js`.

Modelling conventions.

* JavaScript numbers are doubles whose value is an integer, the two infinities
  and `NaN` (`JsNumber`).  Sums, differences and products are rounded to the
  nearest double, ties to even, and overflow to an infinity, as IEEE 754
  prescribes; numbers with a fractional part are not modelled.  The counters of
  the player endpoint and of the page (`progress_ms`, `duration_ms`, clock
  readings) stay far below 2^53 and are plain integers.
* `Json` is a value produced by `JSON.parse`; `JsVal = Option Json` adds
  `undefined` (`none`).
* The tokens file is described by what `fs.existsSync`, `fs.readFileSync` and
  `JSON.parse` make of it (`TokensFile`).  The file system itself is reliable:
  reads of an existing file, writes and unlinks do not throw.
* Every `await fetch(...)` takes its reply from the environment; every request
  made is appended to a log, so that "no request" is `log = []`.
* `Date.now()` readings are parameters.
* Replies of the provider are typed after its documented schema, a field being
  optional wherever the code guards against its absence.
-/

namespace BlobyWeb

/-! ## JavaScript values -/

/-- A value as produced by `JSON.parse`. -/
inductive Json where
  | null : Json
  | bool (b : Bool) : Json
  | num (n : Int) : Json
  | str (s : String) : Json
  | arr (xs : List Json) : Json
  | obj (fields : List (String × Json)) : Json

instance : Inhabited Json := ⟨Json.null⟩

/-- A JavaScript value: `none` is `undefined`. -/
abbrev JsVal := Option Json

/-- ToBoolean on a JSON value. -/
def Json.truthy : Json → Bool
  | .null => false
  | .bool b => b
  | .num n => n != 0
  | .str s => s != ""
  | .arr _ => true
  | .obj _ => true

/-- ToBoolean on a JavaScript value (`undefined` is falsy). -/
def truthy : JsVal → Bool
  | none => false
  | some j => j.truthy

/-- The operator `a || b`. -/
def jsOr (a b : JsVal) : JsVal := if truthy a then a else b

/-- A JavaScript number of the integer model: a double whose value is the
integer `n`, an infinity, or `NaN`. -/
inductive JsNumber where
  | fin (n : Int) : JsNumber
  | posInf : JsNumber
  | negInf : JsNumber
  | nan : JsNumber
deriving DecidableEq

/-- The spacing of the doubles around `m`, for `m` of at least 2^53: `m` is
halved until it fits in 53 bits, the spacing doubling each time. -/
def ulpOf : Nat → Nat → Nat → Nat
  | 0, _, u => u
  | fuel + 1, m, u => if m < 9007199254740992 then u else ulpOf fuel (m / 2) (2 * u)

/-- The double nearest to the natural number `m`, ties going to the even
mantissa; `none` when `m` rounds to infinity, that is from `2^1024 - 2^970` on.
Up to 2^53 every natural number is a double. -/
def roundNat (m : Nat) : Option Nat :=
  if m ≤ 9007199254740992 then some m
  else if 2 ^ 1024 - 2 ^ 970 ≤ m then none
  else
    let u := ulpOf 1024 m 1
    let q := m / u
    let r := m % u
    if 2 * r < u then some (q * u)
    else if u < 2 * r then some ((q + 1) * u)
    else if q % 2 = 0 then some (q * u)
    else some ((q + 1) * u)

/-- The double nearest to the integer `n`. -/
def roundInt : Int → JsNumber
  | .ofNat m =>
    match roundNat m with
    | some k => .fin k
    | none => .posInf
  | .negSucc m =>
    match roundNat (m + 1) with
    | some k => .fin (-(k : Int))
    | none => .negInf

/-- ToBoolean on a number: `0` and `NaN` are falsy. -/
def JsNumber.truthy : JsNumber → Bool
  | .fin n => n != 0
  | .posInf => true
  | .negInf => true
  | .nan => false

/-- Whether a number is neither an infinity nor `NaN`. -/
def JsNumber.isFinite : JsNumber → Bool
  | .fin _ => true
  | _ => false

/-- The negation of a number. -/
def JsNumber.neg : JsNumber → JsNumber
  | .fin n => .fin (-n)
  | .posInf => .negInf
  | .negInf => .posInf
  | .nan => .nan

/-- The operator `a + b` on numbers. -/
def jsAdd : JsNumber → JsNumber → JsNumber
  | .fin a, .fin b => roundInt (a + b)
  | .nan, _ => .nan
  | _, .nan => .nan
  | .posInf, .negInf => .nan
  | .negInf, .posInf => .nan
  | .posInf, _ => .posInf
  | _, .posInf => .posInf
  | .negInf, _ => .negInf
  | _, .negInf => .negInf

/-- The operator `a - b` on numbers. -/
def jsSub : JsNumber → JsNumber → JsNumber
  | .fin a, .fin b => roundInt (a - b)
  | .nan, _ => .nan
  | _, .nan => .nan
  | .posInf, .posInf => .nan
  | .negInf, .negInf => .nan
  | .posInf, _ => .posInf
  | _, .negInf => .posInf
  | .negInf, _ => .negInf
  | _, .posInf => .negInf

/-- The operator `a * b` on numbers. -/
def jsMul : JsNumber → JsNumber → JsNumber
  | .fin a, .fin b => roundInt (a * b)
  | .nan, _ => .nan
  | _, .nan => .nan
  | .posInf, .fin b => if b = 0 then .nan else if 0 < b then .posInf else .negInf
  | .negInf, .fin b => if b = 0 then .nan else if 0 < b then .negInf else .posInf
  | .fin a, .posInf => if a = 0 then .nan else if 0 < a then .posInf else .negInf
  | .fin a, .negInf => if a = 0 then .nan else if 0 < a then .negInf else .posInf
  | .posInf, .posInf => .posInf
  | .posInf, .negInf => .negInf
  | .negInf, .posInf => .negInf
  | .negInf, .negInf => .posInf

/-- The operator `a < b` on numbers: false as soon as one side is `NaN`. -/
def jsLt : JsNumber → JsNumber → Bool
  | .fin a, .fin b => decide (a < b)
  | .nan, _ => false
  | _, .nan => false
  | _, .negInf => false
  | .posInf, _ => false
  | .negInf, _ => true
  | _, .posInf => true

/-- The operator `x || d` on numbers. -/
def jsOrNum (x d : JsNumber) : JsNumber := if x.truthy then x else d

/-- The characters that StringToNumber strips: white space and line ends. -/
def isStrWhiteSpace (c : Char) : Bool :=
  c.toNat == 0x09 || c.toNat == 0x0A || c.toNat == 0x0B || c.toNat == 0x0C ||
  c.toNat == 0x0D || c.toNat == 0x20 || c.toNat == 0xA0 || c.toNat == 0x1680 ||
  (decide (0x2000 ≤ c.toNat) && decide (c.toNat ≤ 0x200A)) || c.toNat == 0x2028 ||
  c.toNat == 0x2029 || c.toNat == 0x202F || c.toNat == 0x205F || c.toNat == 0x3000 ||
  c.toNat == 0xFEFF

/-- The value of a digit, hexadecimal letters included. -/
def digitValue (c : Char) : Option Nat :=
  if 48 ≤ c.toNat ∧ c.toNat ≤ 57 then some (c.toNat - 48)
  else if 97 ≤ c.toNat ∧ c.toNat ≤ 102 then some (c.toNat - 87)
  else if 65 ≤ c.toNat ∧ c.toNat ≤ 70 then some (c.toNat - 55)
  else none

/-- The value of a non-empty run of digits of the given base, most significant
first; `none` when the run is empty or holds another character. -/
def digitsValue (base : Nat) : List Char → Option Nat
  | [] => none
  | cs =>
    cs.foldl (fun acc c =>
      match acc, digitValue c with
      | some a, some d => if d < base then some (base * a + d) else none
      | _, _ => none) (some 0)

/-- The number `m * 10^k` for a mantissa of `len` digits: rounded when it is an
integer, `NaN` when it has a fractional part (outside the integer model). -/
def scaleDecimal (m len : Nat) (k : Int) : JsNumber :=
  if m = 0 then .fin 0
  else
    match k with
    | .ofNat e => if 400 < e then .posInf else roundInt (m * 10 ^ e)
    | .negSucc d =>
      if len ≤ d then .nan
      else if m % 10 ^ (d + 1) = 0 then roundInt (m / 10 ^ (d + 1)) else .nan

/-- The exponent part of a decimal literal: nothing, or `e` or `E` followed by
an optionally signed run of digits. -/
def exponentValue : List Char → Option Int
  | [] => some 0
  | c :: t =>
    if c = 'e' ∨ c = 'E' then
      match t with
      | '+' :: ds => (digitsValue 10 ds).map fun n => (n : Int)
      | '-' :: ds => (digitsValue 10 ds).map fun n => -(n : Int)
      | ds => (digitsValue 10 ds).map fun n => (n : Int)
    else none

/-- The value of an unsigned decimal literal of the StringToNumber grammar:
`Infinity`, or digits with an optional dot, fraction digits and exponent, at
least one digit standing before the exponent. -/
def decimalValue (cs : List Char) : JsNumber :=
  if cs = ['I', 'n', 'f', 'i', 'n', 'i', 't', 'y'] then .posInf
  else
    let ip := cs.takeWhile Char.isDigit
    let r1 := cs.dropWhile Char.isDigit
    let fp := match r1 with
      | '.' :: t => t.takeWhile Char.isDigit
      | _ => []
    let r2 := match r1 with
      | '.' :: t => t.dropWhile Char.isDigit
      | _ => r1
    match digitsValue 10 (ip ++ fp), exponentValue r2 with
    | some m, some e => scaleDecimal m (ip ++ fp).length (e - fp.length)
    | _, _ => .nan

/-- StringToNumber: white space around the literal is dropped; the empty text
is `0`; a binary, octal or hexadecimal literal takes no sign; a decimal literal
may be signed.  A literal whose value has a fractional part is outside the
integer model and reads as `NaN`. -/
def strToNumber (s : String) : JsNumber :=
  match ((s.toList.dropWhile isStrWhiteSpace).reverse.dropWhile isStrWhiteSpace).reverse with
  | [] => .fin 0
  | '0' :: 'x' :: ds => ((digitsValue 16 ds).map fun n => roundInt n).getD .nan
  | '0' :: 'X' :: ds => ((digitsValue 16 ds).map fun n => roundInt n).getD .nan
  | '0' :: 'o' :: ds => ((digitsValue 8 ds).map fun n => roundInt n).getD .nan
  | '0' :: 'O' :: ds => ((digitsValue 8 ds).map fun n => roundInt n).getD .nan
  | '0' :: 'b' :: ds => ((digitsValue 2 ds).map fun n => roundInt n).getD .nan
  | '0' :: 'B' :: ds => ((digitsValue 2 ds).map fun n => roundInt n).getD .nan
  | '+' :: cs => decimalValue cs
  | '-' :: cs => (decimalValue cs).neg
  | cs => decimalValue cs

/-- ToNumber on a JSON value.  A number literal is rounded to a double.  An
array goes through its string form: `[]` is `""`, `[x]` is the string of `x`,
longer arrays contain a comma. -/
def Json.toNumber : Json → JsNumber
  | .null => .fin 0
  | .bool b => .fin (if b then 1 else 0)
  | .num n => roundInt n
  | .str s => strToNumber s
  | .arr [] => .fin 0
  | .arr [.null] => .fin 0
  | .arr [.bool _] => .nan
  | .arr [.num n] => roundInt n
  | .arr [.str s] => strToNumber s
  | .arr [.arr ys] => Json.toNumber (.arr ys)
  | .arr [.obj _] => .nan
  | .arr (_ :: _ :: _) => .nan
  | .obj _ => .nan

/-- ToNumber on a JavaScript value (`undefined` is `NaN`). -/
def toNumber : JsVal → JsNumber
  | none => .nan
  | some j => j.toNumber

/-- The idiom `x || d` on an optional number: `d` replaces an absent value and `0`. -/
def numOr (x : Option Int) (d : Int) : Int :=
  match x with
  | some n => if n != 0 then n else d
  | none => d

/-- The value of a property of an object literal: a value read from a reply or
from the tokens file, or a number computed by the code. -/
inductive PropVal where
  | val (v : JsVal) : PropVal
  | number (x : JsNumber) : PropVal

/-- What `JSON.parse` reads back for a property written by `JSON.stringify`:
`undefined` is left out (`none`), a finite number is kept, an infinity and `NaN`
are written as `null`. -/
def PropVal.stored : PropVal → Option Json
  | .val v => v
  | .number (.fin n) => some (.num n)
  | .number _ => some .null

/-- An object literal: its properties in source order. -/
abbrev JsObject := List (String × PropVal)

/-- An exception. -/
inductive JsError where
  /-- An `Error` with this message, thrown by the code. -/
  | error (message : String) : JsError
  /-- A property read on `null`. -/
  | typeError : JsError
  /-- The JSON body of a reply could not be read. -/
  | syntaxError : JsError
  /-- The promise of `fetch` was rejected. -/
  | fetchError (message : String) : JsError

/-- Read of `v.key` for a key that no prototype defines (`refresh_token`,
`access_token`, `expires_at`): it throws on `null`, finds the own property of an
object and is `undefined` on every other value. -/
def getProp (v : Json) (key : String) : Except JsError JsVal :=
  match v with
  | .null => .error .typeError
  | .obj fields => .ok (fields.lookup key)
  | _ => .ok none

/-! ## Token store -/

/-- What the server finds at `TOKENS_FILE`. -/
inductive TokensFile where
  /-- No file: `fs.existsSync` is false. -/
  | missing : TokensFile
  /-- The file exists and is the empty text. -/
  | empty : TokensFile
  /-- The file holds a non-empty text on which `JSON.parse` throws. -/
  | malformed : TokensFile
  /-- The file holds a text that `JSON.parse` turns into `v`. -/
  | json (v : Json) : TokensFile

/-- The function `loadTokens()`. -/
def loadTokens : TokensFile → Json
  | .missing => .obj []
  | .empty => .obj []
  | .malformed => .obj []
  | .json v => v

/-- What `JSON.parse` reads back from `JSON.stringify(obj, null, 2)`. -/
def stringifyParse (obj : JsObject) : Json :=
  .obj (obj.filterMap fun kv => kv.2.stored.map fun j => (kv.1, j))

/-- The function `saveTokens(obj)`: the file is overwritten as a whole. -/
def saveTokens (obj : JsObject) : TokensFile :=
  .json (stringifyParse obj)

/-! ## Token endpoint -/

/-- A reply to `fetch`: `text` is what `res.text().catch(() => '')` gives,
`json` what `res.json()` resolves to (`none` when it rejects). -/
structure HttpReply (α : Type) where
  status : Nat
  text : String
  json : Option α

/-- The property `res.ok`. -/
def HttpReply.ok {α : Type} (res : HttpReply α) : Bool :=
  decide (200 ≤ res.status) && decide (res.status ≤ 299)

/-- What `await fetch(...)` gives: a reply, or a rejection with its message. -/
abbrev Fetched (α : Type) := Except String (HttpReply α)

/-- Body of a successful reply of the token endpoint; `expires_in` is the
integer its number literal denotes. -/
structure TokenData where
  access_token : Option String
  refresh_token : Option String
  expires_in : Option Int

/-- The expression `Date.now() + (data.expires_in || 3600) * 1000` of lines 77
and 112, in double arithmetic: the literal of `expires_in` is rounded to a
double, `undefined` and `0` give way to 3600, the product and the sum are
rounded. -/
def expiresAt (now : Int) (expires_in : Option Int) : JsNumber :=
  jsAdd (.fin now)
    (jsMul
      (match expires_in with
        | some s => jsOrNum (roundInt s) (.fin 3600)
        | none => .fin 3600)
      (.fin 1000))

/-- A string field of a reply as a JavaScript value. -/
def strVal (s : Option String) : JsVal := s.map Json.str

/-- A request sent to the token endpoint, by grant type. -/
inductive TokenRequest where
  | authorizationCode (code : String) : TokenRequest
  | refreshToken (token : JsVal) : TokenRequest

/-- Result of a lifecycle operation: what it returns or throws, the tokens file
it leaves, and the requests it sent to the token endpoint. -/
structure Outcome (α : Type) where
  result : Except JsError α
  file : TokensFile
  tokenRequests : List TokenRequest

/-- The function `exchangeCodeForTokens(code)`, started on `file`; `now` is the reading of
`Date.now()` at line 77. -/
def exchangeCodeForTokens (file : TokensFile) (code : String)
    (reply : Fetched TokenData) (now : Int) : Outcome JsObject :=
  let sent := [TokenRequest.authorizationCode code]
  match reply with
  | .error m => ⟨.error (.fetchError m), file, sent⟩
  | .ok res =>
    if !res.ok then
      ⟨.error (.error ("Token exchange failed " ++ toString res.status ++ " " ++ res.text)), file, sent⟩
    else
      match res.json with
      | none => ⟨.error .syntaxError, file, sent⟩
      | some data =>
        let tokens : JsObject :=
          [("access_token", .val (strVal data.access_token)),
           ("refresh_token", .val (strVal data.refresh_token)),
           ("expires_at", .number (expiresAt now data.expires_in))]
        ⟨.ok tokens, saveTokens tokens, sent⟩

/-- The test of line 86 on the loaded fields. -/
def stillValid (access_token expires_at : JsVal) (now : Int) : Bool :=
  truthy access_token && truthy expires_at &&
    jsLt (.fin now) (jsSub (toNumber expires_at) (.fin 5000))

/-- The function `refreshAccessTokenIfNeeded()`, started on `file`; `now` is the reading of
`Date.now()` at line 86 and `now'` the one at line 112. -/
def refreshAccessTokenIfNeeded (file : TokensFile) (now now' : Int)
    (reply : Fetched TokenData) : Outcome JsVal :=
  let tokens := loadTokens file
  match getProp tokens "refresh_token" with
  | .error e => ⟨.error e, file, []⟩
  | .ok refresh_token =>
    if !truthy refresh_token then
      ⟨.error (.error "No refresh_token stored. Open /login and authorize once."), file, []⟩
    else
      match getProp tokens "access_token", getProp tokens "expires_at" with
      | .error e, _ => ⟨.error e, file, []⟩
      | .ok _, .error e => ⟨.error e, file, []⟩
      | .ok access_token, .ok expires_at =>
        if stillValid access_token expires_at now then
          ⟨.ok access_token, file, []⟩
        else
          let sent := [TokenRequest.refreshToken refresh_token]
          match reply with
          | .error m => ⟨.error (.fetchError m), file, sent⟩
          | .ok res =>
            if !res.ok then
              ⟨.error (.error ("Refresh token failed " ++ toString res.status ++ " " ++ res.text)),
                file, sent⟩
            else
              match res.json with
              | none => ⟨.error .syntaxError, file, sent⟩
              | some data =>
                let newTokens : JsObject :=
                  [("refresh_token", .val (jsOr (strVal data.refresh_token) refresh_token)),
                   ("access_token", .val (strVal data.access_token)),
                   ("expires_at", .number (expiresAt now' data.expires_in))]
                ⟨.ok (strVal data.access_token), saveTokens newTokens, sent⟩

/-- One call of `refreshAccessTokenIfNeeded`: its two clock readings and the
reply the token endpoint would give. -/
structure RefreshCall where
  now : Int
  now' : Int
  reply : Fetched TokenData

/-- A sequence of calls of `refreshAccessTokenIfNeeded`, one after the other:
the results in order, the file left and all requests sent. -/
def refreshCalls (file : TokensFile) :
    List RefreshCall → List (Except JsError JsVal) × TokensFile × List TokenRequest
  | [] => ([], file, [])
  | c :: cs =>
    let o := refreshAccessTokenIfNeeded file c.now c.now' c.reply
    let rest := refreshCalls o.file cs
    (o.result :: rest.1, rest.2.1, o.tokenRequests ++ rest.2.2)

/-! ## HTTP handlers -/

/-- The track of a snapshot, as built at lines 187-194. -/
structure Track where
  id : Option String
  name : Option String
  artists : String
  album : Option String
  albumImage : Option String
  external_urls : Option Json

/-- The device of a snapshot, as built at line 181. -/
structure Device where
  id : Option String
  name : Option String
  type : Option String

/-- The object answered at lines 183-197. -/
structure Snapshot where
  playing : Bool
  progress_ms : Int
  duration_ms : Option Int
  track : Track
  device : Option Device
  timestamp : Int

/-- JSON body of an answer of the server. -/
inductive ResBody where
  /-- The body `{ ok: true }`. -/
  | ok : ResBody
  /-- The body `{ error: message }` with a message chosen by the handler. -/
  | error (message : String) : ResBody
  /-- The body `{ error: err.message }` of a catch block. -/
  | caught (err : JsError) : ResBody
  /-- The body `{ playing: false }`. -/
  | notPlaying : ResBody
  /-- The full snapshot. -/
  | snapshot (s : Snapshot) : ResBody

/-- An answer of the server. -/
structure HttpResponse where
  status : Nat
  body : ResBody

/-- The `playing` property of a body, through ToBoolean. -/
def ResBody.playing : ResBody → Bool
  | .snapshot s => s.playing
  | _ => false

/-- The `track` property of a body (`none` when the body has none). -/
def ResBody.track : ResBody → Option Track
  | .snapshot s => some s.track
  | _ => none

/-- An image of an album in the reply of the player endpoint. -/
structure Image where
  url : Option String

/-- The album of an item in the reply of the player endpoint. -/
structure Album where
  name : Option String
  images : Option (List Image)

/-- An artist of an item in the reply of the player endpoint. -/
structure Artist where
  name : Option String

/-- The item of the reply of the player endpoint. -/
structure Item where
  id : Option String
  name : Option String
  artists : Option (List Artist)
  album : Option Album
  duration_ms : Option Int
  external_urls : Option Json

/-- The reply of the currently-playing endpoint. -/
structure PlayerData where
  is_playing : Option Bool
  progress_ms : Option Int
  item : Option Item
  device : Option Device

/-- Line 179: the url of the first image, when the album has images. -/
def albumImageOf (item : Item) : Option String :=
  match item.album with
  | none => none
  | some album =>
    match album.images with
    | none => none
    | some [] => none
    | some (img :: _) => img.url

/-- Line 180: the names joined by a comma and a blank; an absent name joins as
the empty text. -/
def artistsOf (item : Item) : String :=
  match item.artists with
  | none => ""
  | some as => ", ".intercalate (as.map fun a => a.name.getD "")

/-- Lines 183-197. -/
def snapshotOf (data : PlayerData) (item : Item) (now : Int) : Snapshot where
  playing := data.is_playing.getD false
  progress_ms := numOr data.progress_ms 0
  duration_ms := match item.duration_ms with
    | some d => if d != 0 then some d else none
    | none => none
  track :=
    { id := item.id
      name := item.name
      artists := artistsOf item
      album := item.album.bind fun a => a.name
      albumImage := albumImageOf item
      external_urls := item.external_urls.bind fun j => if j.truthy then some j else none }
  device := data.device
  timestamp := now

/-- What one run of the now-playing handler meets: clock readings and replies
for the first call of `refreshAccessTokenIfNeeded`, the reply of the player
endpoint (its body may be `null`), the same for the call of line 167, and the
clock reading of line 196. -/
structure NowPlayingEnv where
  now1 : Int
  now1' : Int
  tokenReply1 : Fetched TokenData
  player : Fetched (Option PlayerData)
  now2 : Int
  now2' : Int
  tokenReply2 : Fetched TokenData
  now3 : Int

/-- Result of a handler: its answer, the tokens file it leaves, the requests it
sent to the token endpoint and the bearer tokens of its requests to the player
endpoint. -/
structure Handled where
  response : HttpResponse
  file : TokensFile
  tokenRequests : List TokenRequest
  playerRequests : List JsVal

/-- The handler of `GET /spotify/now-playing`. -/
def nowPlaying (file : TokensFile) (env : NowPlayingEnv) : Handled :=
  let o1 := refreshAccessTokenIfNeeded file env.now1 env.now1' env.tokenReply1
  match o1.result with
  | .error e => ⟨⟨500, .caught e⟩, o1.file, o1.tokenRequests, []⟩
  | .ok accessToken =>
    match env.player with
    | .error m => ⟨⟨500, .caught (.fetchError m)⟩, o1.file, o1.tokenRequests, [accessToken]⟩
    | .ok response =>
      if response.status == 204 then
        ⟨⟨200, .notPlaying⟩, o1.file, o1.tokenRequests, [accessToken]⟩
      else if response.status == 401 then
        let o2 := refreshAccessTokenIfNeeded o1.file env.now2 env.now2' env.tokenReply2
        match o2.result with
        | .error e =>
          ⟨⟨500, .caught e⟩, o2.file, o1.tokenRequests ++ o2.tokenRequests, [accessToken]⟩
        | .ok _ =>
          ⟨⟨502, .error "Unauthorized, token refresh attempted. Try again."⟩, o2.file,
            o1.tokenRequests ++ o2.tokenRequests, [accessToken]⟩
      else if !response.ok then
        ⟨⟨response.status, .error (if response.text != "" then response.text else "Spotify API error")⟩,
          o1.file, o1.tokenRequests, [accessToken]⟩
      else
        match response.json with
        | none => ⟨⟨500, .caught .syntaxError⟩, o1.file, o1.tokenRequests, [accessToken]⟩
        | some none => ⟨⟨200, .notPlaying⟩, o1.file, o1.tokenRequests, [accessToken]⟩
        | some (some data) =>
          match data.item with
          | none => ⟨⟨200, .notPlaying⟩, o1.file, o1.tokenRequests, [accessToken]⟩
          | some item =>
            ⟨⟨200, .snapshot (snapshotOf data item env.now3)⟩, o1.file, o1.tokenRequests,
              [accessToken]⟩

/-- The handler of `GET /spotify/logout`: the file is unlinked when it exists. -/
def logout (file : TokensFile) : Handled :=
  match file with
  | .missing => ⟨⟨200, .ok⟩, .missing, [], []⟩
  | _ => ⟨⟨200, .ok⟩, .missing, [], []⟩

/-! ## Sequences of operations on the token store -/

/-- An operation on the token store, with what it meets in the environment. -/
inductive Op where
  | exchange (code : String) (reply : Fetched TokenData) (now : Int) : Op
  | refresh (now now' : Int) (reply : Fetched TokenData) : Op
  | logout : Op

/-- The tokens file after one operation. -/
def Op.apply (file : TokensFile) : Op → TokensFile
  | .exchange code reply now => (exchangeCodeForTokens file code reply now).file
  | .refresh now now' reply => (refreshAccessTokenIfNeeded file now now' reply).file
  | .logout => (BlobyWeb.logout file).file

/-- The tokens file after a sequence of operations. -/
def runOps (file : TokensFile) (ops : List Op) : TokensFile :=
  ops.foldl Op.apply file

/-! ## Progress loop of the page -/

/-- The value of `nowPlayingState` while a track plays (lines 58-65). -/
structure NowPlayingState where
  fetched_at : Int
  timestamp : Int
  progress_ms : Int
  duration_ms : Int
  track : Option Track
  is_playing : Bool

/-- The variable `nowPlayingState`. -/
inductive ClientState where
  /-- The value `null`. -/
  | null : ClientState
  /-- The value `{ is_playing: false }`. -/
  | idle : ClientState
  /-- The value built at lines 58-65. -/
  | playing (st : NowPlayingState) : ClientState

/-- The idiom `x || 0` on a number. -/
def orZero (x : Int) : Int := if x != 0 then x else 0

/-- The state `fetchNowPlaying` builds at lines 58-65 from a snapshot whose
`playing` is true; `now` and `now'` are the two readings of `Date.now()`. -/
def stateOf (s : Snapshot) (now now' : Int) : NowPlayingState where
  fetched_at := now
  timestamp := if s.timestamp != 0 then s.timestamp else now'
  progress_ms := orZero s.progress_ms
  duration_ms := numOr s.duration_ms 0
  track := some s.track
  is_playing := s.playing

/-- The function `fetchNowPlaying()` on the answer of the server. -/
def fetchNowPlaying (resp : Fetched ResBody) (now now' : Int) : ClientState :=
  match resp with
  | .error _ => .null
  | .ok r =>
    if !r.ok then .null
    else
      match r.json with
      | none => .null
      | some body =>
        if !body.playing then .idle
        else
          match body with
          | .snapshot s => .playing (stateOf s now now')
          | _ => .idle

/-- What one run of `tick` computes: the progress shown and whether another
frame is requested. -/
structure Tick where
  progress : Int
  again : Bool

/-- The function `tick()` at lines 110-122, `now` being its reading of `Date.now()`. -/
def tick (st : NowPlayingState) (now : Int) : Tick :=
  let elapsed := now - (st.fetched_at - orZero st.progress_ms)
  let progress := max 0 (min elapsed (orZero st.duration_ms))
  ⟨progress, decide (progress < orZero st.duration_ms) && st.is_playing⟩

/-- The clamp of `x` to the interval from `lo` to `hi`, as the specification
writes it. -/
def clamp (x lo hi : Int) : Int :=
  if x < lo then lo else if hi < x then hi else x

/-- The access token held by the stored record (`undefined` when there is none). -/
def storedAccessToken (file : TokensFile) : JsVal :=
  match getProp (loadTokens file) "access_token" with
  | .ok v => v
  | .error _ => none

/-- The Valid state at the instant `now`: the stored record has a refresh token,
an access token and an `expires_at`, and `now < expires_at - 5000`. -/
def validState (file : TokensFile) (now : Int) : Bool :=
  match getProp (loadTokens file) "refresh_token", getProp (loadTokens file) "access_token",
      getProp (loadTokens file) "expires_at" with
  | .ok refresh_token, .ok access_token, .ok expires_at =>
    truthy refresh_token && truthy access_token && truthy expires_at &&
      jsLt (.fin now) (jsSub (toNumber expires_at) (.fin 5000))
  | _, _, _ => false

/-! ## Predicates and sample inputs used by the theorems -/

/-- The stored record is absent or carries a numeric `expires_at`. -/
def hasExpiry : TokensFile → Bool
  | .missing => true
  | .json (.obj fs) =>
    match fs.lookup "expires_at" with
    | some (.num _) => true
    | _ => false
  | _ => false

/-- Whether the integer `n` is a double, that is, rounding leaves it as it is. -/
def isDouble (n : Int) : Bool := roundInt n == .fin n

/-- The `expires_at` that the code computes from a reply of the token endpoint
at clock reading `now`; `none` when the reply is not a success with a body. -/
def replyExpiry (reply : Fetched TokenData) (now : Int) : Option JsNumber :=
  match reply with
  | .error _ => none
  | .ok res => if res.ok then res.json.map fun data => expiresAt now data.expires_in else none

/-- No successful reply met by the operation makes the computed `expires_at`
overflow to an infinity. -/
def Op.finiteExpiry : Op → Bool
  | .exchange _ reply now =>
    match replyExpiry reply now with
    | some x => x.isFinite
    | none => true
  | .refresh _ now' reply =>
    match replyExpiry reply now' with
    | some x => x.isFinite
    | none => true
  | .logout => true

/-- An expiry of 10^308 seconds: its thousandfold is beyond every double. -/
def overflowingExpiry : Int := 10 ^ 308

/-- A tokens file holding a record that expires at instant 100000. -/
def sampleFile : TokensFile :=
  .json (.obj [("refresh_token", .str "R1"), ("access_token", .str "A1"),
    ("expires_at", .num 100000)])

/-- A successful reply of the token endpoint that rotates nothing. -/
def sampleTokenReply : Fetched TokenData :=
  .ok ⟨200, "", some ⟨some "A2", none, some 3600⟩⟩

/-- A paused item, as the player endpoint reports it. -/
def sampleItem : Item :=
  ⟨some "t1", some "Song", some [⟨some "X"⟩, ⟨some "Y"⟩], some ⟨some "LP", some [⟨some "u"⟩]⟩,
    some 200000, none⟩

/-- A run of the now-playing handler at instant 1000 in which the player
endpoint answers with `reply`. -/
def sampleEnv (reply : HttpReply (Option PlayerData)) : NowPlayingEnv :=
  ⟨1000, 1000, sampleTokenReply, .ok reply, 1001, 1001, sampleTokenReply, 1002⟩

/-! ## Auxiliary lemmas -/

theorem getProp_ok_of_ok {v : Json} {k : String} {x : JsVal} (k' : String)
    (h : getProp v k = .ok x) : ∃ y, getProp v k' = .ok y := by
  cases v <;> simp [getProp] at h ⊢

theorem logout_file (file : TokensFile) : (logout file).file = .missing := by
  cases file <;> rfl

/-- With no file, an empty file or an unparsable one, the call reports that no
refresh token is stored and sends nothing. -/
theorem refresh_no_record (file : TokensFile) (now now' : Int) (reply : Fetched TokenData)
    (h : file = .missing ∨ file = .empty ∨ file = .malformed) :
    refreshAccessTokenIfNeeded file now now' reply
      = ⟨.error (.error "No refresh_token stored. Open /login and authorize once."), file, []⟩ := by
  rcases h with h | h | h <;> subst h <;> rfl

/-- In the Valid state the call returns the stored access token at once. -/
theorem refresh_valid (file : TokensFile) (now now' : Int) (reply : Fetched TokenData)
    (hv : validState file now = true) :
    refreshAccessTokenIfNeeded file now now' reply = ⟨.ok (storedAccessToken file), file, []⟩ := by
  unfold validState at hv
  unfold refreshAccessTokenIfNeeded storedAccessToken
  cases h1 : getProp (loadTokens file) "refresh_token" with
  | error e => simp [h1] at hv
  | ok rt =>
    cases h2 : getProp (loadTokens file) "access_token" with
    | error e => simp [h1, h2] at hv
    | ok a =>
      cases h3 : getProp (loadTokens file) "expires_at" with
      | error e => simp [h1, h2, h3] at hv
      | ok e =>
        simp only [h1, h2, h3, Bool.and_eq_true] at hv
        obtain ⟨⟨⟨hr, ha⟩, he⟩, hlt⟩ := hv
        simp [h1, h2, h3, hr, stillValid, ha, he, hlt]

/-- Outside the Valid state, with a refresh token stored, the call sends one
refresh request and its outcome follows the reply. -/
theorem refresh_expiring (file : TokensFile) (now now' : Int) (reply : Fetched TokenData)
    (r : Json) (hr : getProp (loadTokens file) "refresh_token" = .ok (some r))
    (hrt : r.truthy = true) (hnv : validState file now = false) :
    refreshAccessTokenIfNeeded file now now' reply =
      match reply with
      | .error m => ⟨.error (.fetchError m), file, [.refreshToken (some r)]⟩
      | .ok res =>
        if !res.ok then
          ⟨.error (.error ("Refresh token failed " ++ toString res.status ++ " " ++ res.text)),
            file, [.refreshToken (some r)]⟩
        else
          match res.json with
          | none => ⟨.error .syntaxError, file, [.refreshToken (some r)]⟩
          | some data =>
            ⟨.ok (strVal data.access_token),
              saveTokens
                [("refresh_token", .val (jsOr (strVal data.refresh_token) (some r))),
                 ("access_token", .val (strVal data.access_token)),
                 ("expires_at", .number (expiresAt now' data.expires_in))],
              [.refreshToken (some r)]⟩ := by
  obtain ⟨a, h2⟩ := getProp_ok_of_ok "access_token" hr
  obtain ⟨e, h3⟩ := getProp_ok_of_ok "expires_at" hr
  have hsv : stillValid a e now = false := by
    simpa [validState, hr, h2, h3, truthy, hrt, stillValid, Bool.and_assoc] using hnv
  simp only [refreshAccessTokenIfNeeded, hr, h2, h3, truthy, hrt, hsv]
  rfl

theorem refresh_success (file : TokensFile) (now now' : Int) (res : HttpReply TokenData)
    (data : TokenData) (r : Json)
    (hr : getProp (loadTokens file) "refresh_token" = .ok (some r))
    (hrt : r.truthy = true) (hnv : validState file now = false)
    (hok : res.ok = true) (hdata : res.json = some data) :
    refreshAccessTokenIfNeeded file now now' (.ok res) =
      ⟨.ok (strVal data.access_token),
        saveTokens
          [("refresh_token", .val (jsOr (strVal data.refresh_token) (some r))),
           ("access_token", .val (strVal data.access_token)),
           ("expires_at", .number (expiresAt now' data.expires_in))],
        [.refreshToken (some r)]⟩ := by
  rw [refresh_expiring file now now' (.ok res) r hr hrt hnv]
  simp [hok, hdata]

theorem jsOr_truthy (a : JsVal) (r : Json) (hrt : r.truthy = true) :
    ∃ j, jsOr a (some r) = some j ∧ j.truthy = true := by
  unfold jsOr
  by_cases h : truthy a = true
  · cases a with
    | none => simp [truthy] at h
    | some j => exact ⟨j, by simp [h], by simpa [truthy] using h⟩
  · exact ⟨r, by simp [h], hrt⟩

/-- What `loadTokens` reads back from a record saved by a refresh. -/
theorem saved_props (j : Json) (a : JsVal) (x : JsNumber) :
    getProp (loadTokens (saveTokens
        [("refresh_token", .val (some j)), ("access_token", .val a), ("expires_at", .number x)]))
        "refresh_token" = .ok (some j) ∧
      getProp (loadTokens (saveTokens
        [("refresh_token", .val (some j)), ("access_token", .val a), ("expires_at", .number x)]))
        "access_token" = .ok a ∧
      getProp (loadTokens (saveTokens
        [("refresh_token", .val (some j)), ("access_token", .val a), ("expires_at", .number x)]))
        "expires_at" = .ok (PropVal.number x).stored := by
  cases a <;> cases x <;>
    simp [saveTokens, loadTokens, stringifyParse, getProp, List.lookup, PropVal.stored]

/-- What `loadTokens` reads back from a record saved by an exchange. -/
theorem saved_exchange_props (a b : JsVal) (x : JsNumber) :
    getProp (loadTokens (saveTokens
        [("access_token", .val a), ("refresh_token", .val b), ("expires_at", .number x)]))
        "access_token" = .ok a ∧
      getProp (loadTokens (saveTokens
        [("access_token", .val a), ("refresh_token", .val b), ("expires_at", .number x)]))
        "expires_at" = .ok (PropVal.number x).stored := by
  cases a <;> cases b <;> cases x <;>
    simp [saveTokens, loadTokens, stringifyParse, getProp, List.lookup, PropVal.stored]

theorem saved_expiry (k1 k2 : String) (a b : JsVal) (e : Int)
    (h1 : ("expires_at" == k1) = false) (h2 : ("expires_at" == k2) = false) :
    hasExpiry (saveTokens [(k1, .val a), (k2, .val b), ("expires_at", .number (.fin e))])
      = true := by
  cases a <;> cases b <;>
    simp [hasExpiry, saveTokens, stringifyParse, List.lookup, PropVal.stored, h1, h2]

theorem hasExpiry_cases {file : TokensFile} (h : hasExpiry file = true) :
    file = .missing ∨ ∃ fs e, file = .json (.obj fs) ∧ fs.lookup "expires_at" = some (.num e) := by
  cases file with
  | missing => exact Or.inl rfl
  | empty => simp [hasExpiry] at h
  | malformed => simp [hasExpiry] at h
  | json v =>
    cases v with
    | obj fs =>
      cases hl : fs.lookup "expires_at" with
      | none => simp [hasExpiry, hl] at h
      | some j =>
        cases j with
        | num e => exact Or.inr ⟨fs, e, rfl, hl⟩
        | _ => simp [hasExpiry, hl] at h
    | _ => simp [hasExpiry] at h

/-- An exchange leaves the file as it was or saves a full record whose
`expires_at` is the one computed from the reply. -/
theorem exchange_file (file : TokensFile) (code : String) (reply : Fetched TokenData) (now : Int) :
    (exchangeCodeForTokens file code reply now).file = file ∨
      ∃ a b x, replyExpiry reply now = some x ∧
        (exchangeCodeForTokens file code reply now).file
          = saveTokens [("access_token", .val a), ("refresh_token", .val b),
              ("expires_at", .number x)] := by
  unfold exchangeCodeForTokens
  cases reply with
  | error m => exact Or.inl rfl
  | ok res =>
    by_cases hok : res.ok = true
    · cases hj : res.json with
      | none => simp [hok, hj]
      | some data =>
        exact Or.inr ⟨strVal data.access_token, strVal data.refresh_token,
          expiresAt now data.expires_in, by simp [replyExpiry, hok, hj], by simp [hok, hj]⟩
    · simp [hok]

/-- A refresh leaves the file as it was or saves a full record whose
`expires_at` is the one computed from the reply. -/
theorem refresh_file (file : TokensFile) (now now' : Int) (reply : Fetched TokenData) :
    (refreshAccessTokenIfNeeded file now now' reply).file = file ∨
      ∃ a b x, replyExpiry reply now' = some x ∧
        (refreshAccessTokenIfNeeded file now now' reply).file
          = saveTokens [("refresh_token", .val a), ("access_token", .val b),
              ("expires_at", .number x)] := by
  unfold refreshAccessTokenIfNeeded
  simp only []
  repeat' split
  all_goals first
    | exact Or.inl rfl
    | exact Or.inr ⟨_, _, _, by simp_all [replyExpiry], rfl⟩

theorem apply_hasExpiry (file : TokensFile) (op : Op) (hfin : op.finiteExpiry = true)
    (h : hasExpiry file = true) : hasExpiry (op.apply file) = true := by
  cases op with
  | exchange code reply now =>
    rcases exchange_file file code reply now with h' | ⟨a, b, x, hx, h'⟩
    · simpa [Op.apply, h'] using h
    · simp only [Op.finiteExpiry, hx] at hfin
      cases x with
      | fin e => simpa [Op.apply, h'] using saved_expiry _ _ a b e (by decide) (by decide)
      | _ => simp [JsNumber.isFinite] at hfin
  | refresh now now' reply =>
    rcases refresh_file file now now' reply with h' | ⟨a, b, x, hx, h'⟩
    · simpa [Op.apply, h'] using h
    · simp only [Op.finiteExpiry, hx] at hfin
      cases x with
      | fin e => simpa [Op.apply, h'] using saved_expiry _ _ a b e (by decide) (by decide)
      | _ => simp [JsNumber.isFinite] at hfin
  | logout =>
    simp [Op.apply, logout_file, hasExpiry]

theorem runOps_hasExpiry (ops : List Op) :
    ∀ file, (∀ op ∈ ops, op.finiteExpiry = true) → hasExpiry file = true →
      hasExpiry (runOps file ops) = true := by
  induction ops with
  | nil => intro file _ h; exact h
  | cons op ops ih =>
    intro file hfin h
    exact ih (op.apply file) (fun o ho => hfin o (List.mem_cons_of_mem _ ho))
      (apply_hasExpiry file op (hfin op (List.mem_cons_self _ _)) h)

/-- Every integer of magnitude at most 2^53 is a double. -/
theorem roundInt_of_abs_le (n : Int) (h : |n| ≤ 9007199254740992) : roundInt n = .fin n := by
  have h' := abs_le.mp h
  cases n with
  | ofNat m =>
    have hm : m ≤ 9007199254740992 := by
      have := h'.2
      simp only [Int.ofNat_eq_coe] at this
      omega
    simp [roundInt, roundNat, hm]
  | negSucc m =>
    have hm : m + 1 ≤ 9007199254740992 := by
      have := h'.1
      rw [Int.negSucc_eq] at this
      omega
    simp only [roundInt, roundNat, hm, if_true]
    rfl

theorem isDouble_of_abs_le (n : Int) (h : |n| ≤ 9007199254740992) : isDouble n = true := by
  simp [isDouble, roundInt_of_abs_le n h]

/-- The expiry computed from a non-zero `expires_in` is the exact sum as soon as
every step of the computation is exact. -/
theorem expiresAt_exact (now s : Int) (hs0 : s ≠ 0) (hs : isDouble s = true)
    (hm : isDouble (1000 * s) = true) (ha : isDouble (now + 1000 * s) = true) :
    expiresAt now (some s) = .fin (now + 1000 * s) := by
  have e1 : roundInt s = .fin s := by simpa [isDouble] using hs
  have e2 : roundInt (s * 1000) = .fin (s * 1000) := by
    rw [mul_comm]; simpa [isDouble] using hm
  have e3 : roundInt (now + s * 1000) = .fin (now + 1000 * s) := by
    rw [mul_comm s]; simpa [isDouble] using ha
  simp [expiresAt, e1, jsOrNum, JsNumber.truthy, hs0, jsMul, e2, jsAdd, e3]

/-- An expiry of 10^308 seconds overflows: the product by 1000 is an infinity. -/
theorem expiresAt_overflowing : expiresAt 1000 (some overflowingExpiry) = .posInf := by
  decide!

/-- The expiry computed when `expires_in` is absent or zero is the clock reading
plus one hour as soon as that sum is a double. -/
theorem expiresAt_default (now : Int) (e : Option Int) (h : e = none ∨ e = some 0)
    (ha : isDouble (now + 3600000) = true) : expiresAt now e = .fin (now + 3600000) := by
  have e0 : roundInt 0 = .fin 0 := by decide
  have e1 : roundInt 3600000 = .fin 3600000 := by decide
  have e3 : roundInt (now + 3600000) = .fin (now + 3600000) := by simpa [isDouble] using ha
  rcases h with h | h <;> subst h <;>
    simp [expiresAt, e0, jsOrNum, JsNumber.truthy, jsMul, e1, jsAdd, e3]

/-! ## Token lifecycle -/

/-- Claim C1: while the stored record is in the Valid state, every call of
`refreshAccessTokenIfNeeded` returns exactly the stored access token, sends no
request to the token endpoint and leaves the tokens file unchanged; the same
holds for a whole sequence of calls each made at an instant where the record is
Valid. -/
theorem refreshAccessTokenIfNeeded_valid_no_request (file : TokensFile)
    (calls : List RefreshCall) (hv : ∀ c ∈ calls, validState file c.now = true) :
    (∀ c ∈ calls, refreshAccessTokenIfNeeded file c.now c.now' c.reply
        = ⟨.ok (storedAccessToken file), file, []⟩) ∧
      refreshCalls file calls
        = (calls.map fun _ => .ok (storedAccessToken file), file, []) := by
  refine ⟨fun c hc => refresh_valid file c.now c.now' c.reply (hv c hc), ?_⟩
  induction calls with
  | nil => rfl
  | cons c cs ih =>
    have hc := refresh_valid file c.now c.now' c.reply (hv c (List.mem_cons_self _ _))
    have ih' := ih (fun d hd => hv d (List.mem_cons_of_mem _ hd))
    simp [refreshCalls, hc, ih']

/-- Two calls on the sample record, at instants 1000 and 2000. -/
theorem refreshAccessTokenIfNeeded_valid_no_request_witness :
    (∀ c ∈ [(⟨1000, 1000, sampleTokenReply⟩ : RefreshCall), ⟨2000, 2001, .error "down"⟩],
        validState sampleFile c.now = true) ∧
      refreshCalls sampleFile [⟨1000, 1000, sampleTokenReply⟩, ⟨2000, 2001, .error "down"⟩]
        = ([.ok (some (.str "A1")), .ok (some (.str "A1"))], sampleFile, []) :=
  have hv : ∀ c ∈ [(⟨1000, 1000, sampleTokenReply⟩ : RefreshCall), ⟨2000, 2001, .error "down"⟩],
      validState sampleFile c.now = true := by
    intro c hc
    simp only [List.mem_cons, List.mem_singleton, List.not_mem_nil, or_false] at hc
    rcases hc with hc | hc <;> subst hc <;> decide
  ⟨hv, (refreshAccessTokenIfNeeded_valid_no_request sampleFile
      [⟨1000, 1000, sampleTokenReply⟩, ⟨2000, 2001, .error "down"⟩] hv).2⟩

/-- Claim C2: when the stored record has a refresh token `r` and is not in the
Valid state, and the token endpoint answers the refresh request with a
non-success status, `refreshAccessTokenIfNeeded` throws the refresh error and
the tokens file is left exactly as it was, so that `loadTokens` still reports
`r` as the refresh token. -/
theorem refreshAccessTokenIfNeeded_failed_refresh_keeps_record (file : TokensFile)
    (now now' : Int) (res : HttpReply TokenData) (r : Json)
    (hr : getProp (loadTokens file) "refresh_token" = .ok (some r))
    (hrt : r.truthy = true) (hnv : validState file now = false) (hbad : res.ok = false) :
    (refreshAccessTokenIfNeeded file now now' (.ok res)).result
        = .error (.error ("Refresh token failed " ++ toString res.status ++ " " ++ res.text)) ∧
      (refreshAccessTokenIfNeeded file now now' (.ok res)).file = file ∧
      getProp (loadTokens (refreshAccessTokenIfNeeded file now now' (.ok res)).file)
        "refresh_token" = .ok (some r) := by
  rw [refresh_expiring file now now' (.ok res) r hr hrt hnv]
  simp [hbad, hr]

/-- The sample record at instant 99000, the token endpoint answering 400. -/
theorem refreshAccessTokenIfNeeded_failed_refresh_keeps_record_witness :
    (refreshAccessTokenIfNeeded sampleFile 99000 99001 (.ok ⟨400, "invalid_grant", none⟩)).result
        = .error (.error ("Refresh token failed " ++ toString 400 ++ " " ++ "invalid_grant")) ∧
      (refreshAccessTokenIfNeeded sampleFile 99000 99001
        (.ok ⟨400, "invalid_grant", none⟩)).file = sampleFile ∧
      getProp (loadTokens (refreshAccessTokenIfNeeded sampleFile 99000 99001
        (.ok ⟨400, "invalid_grant", none⟩)).file) "refresh_token" = .ok (some (.str "R1")) :=
  refreshAccessTokenIfNeeded_failed_refresh_keeps_record sampleFile 99000 99001
    ⟨400, "invalid_grant", none⟩ (.str "R1") rfl rfl (by decide) rfl

/-- Claim C3: when the stored record has a refresh token `r` and is not in the
Valid state, and the refresh exchange succeeds with body `data`, the call
returns the new access token, the record persisted has that access token, and
its refresh token is the new one when the provider returned one and the old `r`
otherwise; in every case a refresh token stays stored. -/
theorem refreshAccessTokenIfNeeded_success_persists_tokens (file : TokensFile)
    (now now' : Int) (res : HttpReply TokenData) (data : TokenData) (r : Json)
    (hr : getProp (loadTokens file) "refresh_token" = .ok (some r))
    (hrt : r.truthy = true) (hnv : validState file now = false)
    (hok : res.ok = true) (hdata : res.json = some data) :
    (refreshAccessTokenIfNeeded file now now' (.ok res)).result = .ok (strVal data.access_token) ∧
      getProp (loadTokens (refreshAccessTokenIfNeeded file now now' (.ok res)).file)
        "access_token" = .ok (strVal data.access_token) ∧
      (∀ s, data.refresh_token = some s → s ≠ "" →
        getProp (loadTokens (refreshAccessTokenIfNeeded file now now' (.ok res)).file)
          "refresh_token" = .ok (some (.str s))) ∧
      ((data.refresh_token = none ∨ data.refresh_token = some "") →
        getProp (loadTokens (refreshAccessTokenIfNeeded file now now' (.ok res)).file)
          "refresh_token" = .ok (some r)) ∧
      (∃ r', getProp (loadTokens (refreshAccessTokenIfNeeded file now now' (.ok res)).file)
          "refresh_token" = .ok (some r') ∧ r'.truthy = true) := by
  rw [refresh_success file now now' res data r hr hrt hnv hok hdata]
  obtain ⟨j, hj, hjt⟩ := jsOr_truthy (strVal data.refresh_token) r hrt
  rw [hj]
  obtain ⟨h1, h2, -⟩ := saved_props j (strVal data.access_token)
    (expiresAt now' data.expires_in)
  refine ⟨rfl, h2, ?_, ?_, ⟨j, h1, hjt⟩⟩
  · intro s hs hne
    rw [h1]
    have : jsOr (strVal data.refresh_token) (some r) = some (.str s) := by
      simp [jsOr, strVal, hs, truthy, Json.truthy, hne]
    rw [this] at hj
    rw [← hj]
  · intro h
    rw [h1]
    have : jsOr (strVal data.refresh_token) (some r) = some r := by
      rcases h with h | h <;> simp [jsOr, strVal, h, truthy, Json.truthy]
    rw [this] at hj
    rw [← hj]

/-- The sample record at instant 99000, the provider returning a new access
token and no refresh token. -/
theorem refreshAccessTokenIfNeeded_success_persists_tokens_witness :
    (refreshAccessTokenIfNeeded sampleFile 99000 99001
        (.ok ⟨200, "", some ⟨some "A2", none, some 3600⟩⟩)).result = .ok (some (.str "A2")) ∧
      getProp (loadTokens (refreshAccessTokenIfNeeded sampleFile 99000 99001
        (.ok ⟨200, "", some ⟨some "A2", none, some 3600⟩⟩)).file) "access_token"
        = .ok (some (.str "A2")) ∧
      getProp (loadTokens (refreshAccessTokenIfNeeded sampleFile 99000 99001
        (.ok ⟨200, "", some ⟨some "A2", none, some 3600⟩⟩)).file) "refresh_token"
        = .ok (some (.str "R1")) :=
  have h := refreshAccessTokenIfNeeded_success_persists_tokens sampleFile 99000 99001
    ⟨200, "", some ⟨some "A2", none, some 3600⟩⟩ ⟨some "A2", none, some 3600⟩ (.str "R1")
    rfl rfl (by decide) rfl rfl
  ⟨h.1, h.2.1, h.2.2.2.1 (Or.inl rfl)⟩

/-- Claim C4: whatever the tokens file held before, after the logout handler
the next call of `refreshAccessTokenIfNeeded` throws the error that no refresh
token is stored and sends no request to the token endpoint. -/
theorem logout_then_refresh_unauthorized (file : TokensFile) (now now' : Int)
    (reply : Fetched TokenData) :
    (logout file).response = ⟨200, .ok⟩ ∧
      refreshAccessTokenIfNeeded (logout file).file now now' reply
        = ⟨.error (.error "No refresh_token stored. Open /login and authorize once."),
            (logout file).file, []⟩ := by
  refine ⟨by cases file <;> rfl, ?_⟩
  rw [logout_file]
  rfl

/-! ## Now-playing handler -/

/-- Claim C5, evaluated on a Valid record: when the player endpoint answers 401
the handler answers 502 with the message that a token refresh was attempted,
yet the call of line 167 found the record Valid and sent no request to the token
endpoint at all; the player endpoint was called once. -/
theorem nowPlaying_unauthorized_valid_record_sends_no_refresh :
    (nowPlaying sampleFile (sampleEnv ⟨401, "", none⟩)).response
        = ⟨502, .error "Unauthorized, token refresh attempted. Try again."⟩ ∧
      (nowPlaying sampleFile (sampleEnv ⟨401, "", none⟩)).tokenRequests = [] ∧
      (nowPlaying sampleFile (sampleEnv ⟨401, "", none⟩)).playerRequests
        = [some (.str "A1")] ∧
      validState sampleFile 1001 = true := by
  refine ⟨rfl, rfl, rfl, by decide⟩

/-- Claim C8 fails on a paused item: the player endpoint answers 200 with
`is_playing` false and an item, and the snapshot returned has `playing` false
together with a track. -/
theorem nowPlaying_paused_item_has_track :
    (nowPlaying sampleFile (sampleEnv
        ⟨200, "", some (some ⟨some false, some 5000, some sampleItem, none⟩)⟩)).response.body.playing
        = false ∧
      ((nowPlaying sampleFile (sampleEnv
        ⟨200, "", some (some ⟨some false, some 5000, some sampleItem, none⟩)⟩)).response.body.track).isSome
        = true ∧
      ¬ (((nowPlaying sampleFile (sampleEnv
        ⟨200, "", some (some ⟨some false, some 5000, some sampleItem, none⟩)⟩)).response.body.track).isSome
          = true ↔
        ((nowPlaying sampleFile (sampleEnv
          ⟨200, "", some (some ⟨some false, some 5000, some sampleItem, none⟩)⟩)).response.body.playing
          = true ∧ (some sampleItem).isSome = true)) := by
  refine ⟨rfl, rfl, ?_⟩
  intro h
  have h1 := (h.mp rfl).1
  exact absurd h1 (by decide)

/-- Claim C8 as amended: once the handler holds an access token and the player
endpoint answers with a success status, the body returned has a track exactly
when the status is not 204 and the reply carries an item; in that case the
track is the one built from the item and the playing flag of the body is the
truth value of `is_playing`, so that an item that is not playing is answered
with `playing` false together with a track.  A body whose playing flag is true
always has a track. -/
theorem nowPlaying_track_iff_item (file : TokensFile) (env : NowPlayingEnv) (tok : JsVal)
    (res : HttpReply (Option PlayerData))
    (htok : (refreshAccessTokenIfNeeded file env.now1 env.now1' env.tokenReply1).result = .ok tok)
    (hplayer : env.player = .ok res) (hok : res.ok = true) :
    (((nowPlaying file env).response.body.track).isSome = true ↔
        (res.status ≠ 204 ∧ ∃ data item, res.json = some (some data) ∧ data.item = some item)) ∧
      (∀ data item, res.status ≠ 204 → res.json = some (some data) → data.item = some item →
        (nowPlaying file env).response.body.track = some (snapshotOf data item env.now3).track ∧
        (nowPlaying file env).response.body.playing = data.is_playing.getD false ∧
        (data.is_playing.getD false = false →
          (nowPlaying file env).response.body.playing = false ∧
          ((nowPlaying file env).response.body.track).isSome = true)) ∧
      ((nowPlaying file env).response.body.playing = true →
        ((nowPlaying file env).response.body.track).isSome = true) := by
  have h401 : ¬ res.status = 401 := by
    intro h
    simp [HttpReply.ok, h] at hok
  unfold nowPlaying
  simp only [htok, hplayer]
  by_cases h204 : res.status = 204
  · simp [h204, ResBody.track, ResBody.playing]
  · simp only [beq_iff_eq, h204, h401, hok, if_false, Bool.not_true, Bool.false_eq_true]
    rcases hj : res.json with _ | _ | data
    · simp [ResBody.track, ResBody.playing]
    · simp [ResBody.track, ResBody.playing]
    · cases hi : data.item with
      | none =>
        simp only [hi]
        refine ⟨by simp [ResBody.track, h204, hi], ?_, by simp [ResBody.playing]⟩
        intro data' item' _ hd hi'
        have hdd : data' = data := by
          simpa using hd.symm
        subst hdd
        rw [hi] at hi'
        simp at hi'
      | some item =>
        simp only [hi]
        refine ⟨by simp [ResBody.track, hi, h204], ?_, by simp [ResBody.track]⟩
        intro data' item' _ hd hi'
        have hdd : data' = data := by
          simpa using hd.symm
        subst hdd
        have hii : item' = item := by
          rw [hi] at hi'
          simpa using hi'.symm
        subst hii
        refine ⟨by simp [ResBody.track], by simp [ResBody.playing, snapshotOf], ?_⟩
        intro hp
        exact ⟨by simp [ResBody.playing, snapshotOf, hp], by simp [ResBody.track]⟩

/-- The sample record at instant 1000 and a paused item: the body has `playing`
false and a track. -/
theorem nowPlaying_track_iff_item_witness :
    (nowPlaying sampleFile (sampleEnv
        ⟨200, "", some (some ⟨some false, some 5000, some sampleItem, none⟩)⟩)).response.body.playing
        = false ∧
      ((nowPlaying sampleFile (sampleEnv
        ⟨200, "", some (some ⟨some false, some 5000, some sampleItem, none⟩)⟩)).response.body.track).isSome
        = true :=
  ((nowPlaying_track_iff_item sampleFile
    (sampleEnv ⟨200, "", some (some ⟨some false, some 5000, some sampleItem, none⟩)⟩)
    (some (.str "A1")) ⟨200, "", some (some ⟨some false, some 5000, some sampleItem, none⟩)⟩
    rfl rfl rfl).2.1 ⟨some false, some 5000, some sampleItem, none⟩ sampleItem (by decide) rfl rfl).2.2
    rfl

/-! ## Token store -/

/-- Claim C7, evaluated on a tokens file holding the text `null`: `loadTokens`
returns `null`, not the empty record, and `refreshAccessTokenIfNeeded` then
throws a TypeError on its first property read instead of the error that no
refresh token is stored. -/
theorem loadTokens_null_text_breaks_refresh (now now' : Int) (reply : Fetched TokenData) :
    loadTokens (.json .null) = .null ∧
      refreshAccessTokenIfNeeded (.json .null) now now' reply
        = ⟨.error .typeError, .json .null, []⟩ ∧
      (nowPlaying (.json .null) ⟨now, now', reply, .error "", now, now', reply, now⟩).response
        = ⟨500, .caught .typeError⟩ := by
  refine ⟨rfl, rfl, rfl⟩

/-- Claim C9 fails for an expiry of 0 seconds and for an expiry that overflows:
an exchange at instant 1000 in which the provider reports `expires_in = 0`
persists and returns `expires_at = 3601000`, not `1000 + 1000 * 0`; one in which
it reports `expires_in = 10^308` returns an infinite `expires_at` and persists
`null`. -/
theorem exchangeCodeForTokens_zero_expiry :
    (exchangeCodeForTokens .missing "code"
        (.ok ⟨200, "", some ⟨some "A1", some "R1", some 0⟩⟩) 1000).result
        = .ok [("access_token", .val (some (.str "A1"))), ("refresh_token", .val (some (.str "R1"))),
            ("expires_at", .number (.fin 3601000))] ∧
      getProp (loadTokens (exchangeCodeForTokens .missing "code"
        (.ok ⟨200, "", some ⟨some "A1", some "R1", some 0⟩⟩) 1000).file) "expires_at"
        = .ok (some (.num 3601000)) ∧
      getProp (loadTokens (exchangeCodeForTokens .missing "code"
        (.ok ⟨200, "", some ⟨some "A1", some "R1", some 0⟩⟩) 1000).file) "expires_at"
        ≠ .ok (some (.num (1000 + 1000 * 0))) ∧
      (exchangeCodeForTokens .missing "code"
        (.ok ⟨200, "", some ⟨some "A1", some "R1", some overflowingExpiry⟩⟩) 1000).result
        = .ok [("access_token", .val (some (.str "A1"))), ("refresh_token", .val (some (.str "R1"))),
            ("expires_at", .number .posInf)] ∧
      getProp (loadTokens (exchangeCodeForTokens .missing "code"
        (.ok ⟨200, "", some ⟨some "A1", some "R1", some overflowingExpiry⟩⟩) 1000).file) "expires_at"
        = .ok (some .null) := by
  have h0 : expiresAt 1000 (some 0) = .fin 3601000 := by decide
  have hbig := expiresAt_overflowing
  have hok : (⟨200, "", some ⟨some "A1", some "R1", some 0⟩⟩ : HttpReply TokenData).ok = true := rfl
  have hok' : (⟨200, "", some ⟨some "A1", some "R1", some overflowingExpiry⟩⟩ : HttpReply TokenData).ok
      = true := rfl
  refine ⟨?_, ?_, ?_, ?_, ?_⟩
  · simp [exchangeCodeForTokens, hok, h0, strVal]
  · simp [exchangeCodeForTokens, hok, h0, strVal, saveTokens, stringifyParse, loadTokens, getProp,
      List.lookup, PropVal.stored]
  · simp [exchangeCodeForTokens, hok, h0, strVal, saveTokens, stringifyParse, loadTokens, getProp,
      List.lookup, PropVal.stored]
  · simp [exchangeCodeForTokens, hok', hbig, strVal]
  · simp [exchangeCodeForTokens, hok', hbig, strVal, saveTokens, stringifyParse, loadTokens,
      getProp, List.lookup, PropVal.stored]

/-- Claim C9 as amended: after a successful authorization-code exchange at
instant `now`, when the provider reports a non-zero expiry of `s` seconds and
`s`, `1000 * s` and `now + 1000 * s` are doubles, the record persisted and the
record returned have `expires_at` equal to `now + 1000 * s`; when it reports 0
or no expiry and `now + 3600000` is a double, both have `expires_at` equal to
`now + 3600000`.  Every integer of magnitude at most 2^53 is a double. -/
theorem exchangeCodeForTokens_expires_at (file : TokensFile) (code : String)
    (res : HttpReply TokenData) (data : TokenData) (now : Int)
    (hok : res.ok = true) (hdata : res.json = some data) :
    (∃ tokens, (exchangeCodeForTokens file code (.ok res) now).result = .ok tokens ∧
      (∀ s, data.expires_in = some s → s ≠ 0 → isDouble s = true →
        isDouble (1000 * s) = true → isDouble (now + 1000 * s) = true →
        tokens.lookup "expires_at" = some (.number (.fin (now + 1000 * s))) ∧
        getProp (loadTokens (exchangeCodeForTokens file code (.ok res) now).file) "expires_at"
          = .ok (some (.num (now + 1000 * s)))) ∧
      ((data.expires_in = none ∨ data.expires_in = some 0) →
        isDouble (now + 3600000) = true →
        tokens.lookup "expires_at" = some (.number (.fin (now + 3600000))) ∧
        getProp (loadTokens (exchangeCodeForTokens file code (.ok res) now).file) "expires_at"
          = .ok (some (.num (now + 3600000))))) ∧
      (∀ n : Int, |n| ≤ 2 ^ 53 → isDouble n = true) := by
  refine ⟨⟨_, by simp [exchangeCodeForTokens, hok, hdata]; rfl, ?_, ?_⟩, ?_⟩
  · intro s hs hne h1 h2 h3
    have hx := expiresAt_exact now s hne h1 h2 h3
    have hp := (saved_exchange_props (strVal data.access_token) (strVal data.refresh_token)
      (expiresAt now data.expires_in)).2
    simp only [exchangeCodeForTokens, hok, hdata]
    rw [hs] at hp ⊢
    rw [hx] at hp ⊢
    exact ⟨by simp [List.lookup], by simpa [PropVal.stored] using hp⟩
  · intro h h3
    have hx := expiresAt_default now data.expires_in h h3
    have hp := (saved_exchange_props (strVal data.access_token) (strVal data.refresh_token)
      (expiresAt now data.expires_in)).2
    simp only [exchangeCodeForTokens, hok, hdata]
    rw [hx] at hp ⊢
    exact ⟨by simp [List.lookup], by simpa [PropVal.stored] using hp⟩
  · intro n hn
    exact isDouble_of_abs_le n (by norm_num at hn ⊢; exact hn)

/-- An exchange at instant 1000 with an expiry of 3600 seconds. -/
theorem exchangeCodeForTokens_expires_at_witness :
    ∃ tokens, (exchangeCodeForTokens .missing "code"
        (.ok ⟨200, "", some ⟨some "A1", some "R1", some 3600⟩⟩) 1000).result = .ok tokens ∧
      tokens.lookup "expires_at" = some (.number (.fin (1000 + 1000 * 3600))) ∧
      getProp (loadTokens (exchangeCodeForTokens .missing "code"
        (.ok ⟨200, "", some ⟨some "A1", some "R1", some 3600⟩⟩) 1000).file) "expires_at"
        = .ok (some (.num (1000 + 1000 * 3600))) :=
  have ⟨⟨tokens, h1, h2, _⟩, _⟩ := exchangeCodeForTokens_expires_at .missing "code"
    ⟨200, "", some ⟨some "A1", some "R1", some 3600⟩⟩ ⟨some "A1", some "R1", some 3600⟩ 1000
    rfl rfl
  ⟨tokens, h1, h2 3600 rfl (by decide) (by decide) (by decide) (by decide)⟩

/-- Claim C10 fails when the computed expiry overflows: from the empty store, one
successful exchange in which the provider reports `expires_in = 10^308` leaves a
record that has an access token while its `expires_at` is `null`, not a number. -/
theorem runOps_overflow_drops_expiry :
    getProp (loadTokens (runOps .missing
        [.exchange "code" (.ok ⟨200, "", some ⟨some "A1", some "R1", some overflowingExpiry⟩⟩) 1000]))
        "access_token" = .ok (some (.str "A1")) ∧
      getProp (loadTokens (runOps .missing
        [.exchange "code" (.ok ⟨200, "", some ⟨some "A1", some "R1", some overflowingExpiry⟩⟩) 1000]))
        "expires_at" = .ok (some .null) ∧
      ¬ ∃ e, getProp (loadTokens (runOps .missing
        [.exchange "code" (.ok ⟨200, "", some ⟨some "A1", some "R1", some overflowingExpiry⟩⟩) 1000]))
        "expires_at" = .ok (some (.num e)) := by
  have hbig := expiresAt_overflowing
  have hok' : (⟨200, "", some ⟨some "A1", some "R1", some overflowingExpiry⟩⟩ : HttpReply TokenData).ok
      = true := rfl
  have hx : getProp (loadTokens (runOps .missing
        [.exchange "code" (.ok ⟨200, "", some ⟨some "A1", some "R1", some overflowingExpiry⟩⟩) 1000]))
        "expires_at" = .ok (some .null) := by
    simp [runOps, Op.apply, exchangeCodeForTokens, hok', hbig, strVal, saveTokens, stringifyParse,
      loadTokens, getProp, List.lookup, PropVal.stored]
  refine ⟨?_, hx, ?_⟩
  · simp [runOps, Op.apply, exchangeCodeForTokens, hok', hbig, strVal, saveTokens, stringifyParse,
      loadTokens, getProp, List.lookup, PropVal.stored]
  · rintro ⟨e, he⟩
    rw [hx] at he
    simp at he

/-- Claim C10 as amended: starting from the empty token store, after every
finite sequence of exchanges, refreshes (each succeeding or failing) and logouts
in which no successful reply makes the computed `expires_at` overflow to an
infinity, a stored record that has an access token also has an `expires_at`,
which is a number. -/
theorem runOps_access_token_has_expiry (ops : List Op) (a : Json)
    (hfin : ∀ op ∈ ops, op.finiteExpiry = true)
    (ha : getProp (loadTokens (runOps .missing ops)) "access_token" = .ok (some a)) :
    ∃ e, getProp (loadTokens (runOps .missing ops)) "expires_at" = .ok (some (.num e)) := by
  rcases hasExpiry_cases (runOps_hasExpiry ops .missing hfin rfl) with h | ⟨fs, e, h, he⟩
  · rw [h] at ha
    simp [loadTokens, getProp] at ha
  · exact ⟨e, by rw [h]; simp [loadTokens, getProp, he]⟩

/-- An exchange at instant 1000 followed by a refresh at instant 5000000. -/
theorem runOps_access_token_has_expiry_witness :
    ∃ e, getProp (loadTokens (runOps .missing
        [.exchange "code" (.ok ⟨200, "", some ⟨some "A1", some "R1", some 3600⟩⟩) 1000,
         .refresh 5000000 5000001 sampleTokenReply])) "expires_at" = .ok (some (.num e)) :=
  runOps_access_token_has_expiry
    [.exchange "code" (.ok ⟨200, "", some ⟨some "A1", some "R1", some 3600⟩⟩) 1000,
     .refresh 5000000 5000001 sampleTokenReply] (.str "A2")
    (by
      intro op hop
      simp only [List.mem_cons, List.mem_singleton, List.not_mem_nil, or_false] at hop
      rcases hop with hop | hop <;> subst hop <;> decide)
    rfl

/-! ## Progress loop -/

/-- Claim C6: for a snapshot with any progress and a duration `d` of at least 0, the progress
computed by `tick` at instant `now` from the state anchored at `fetched_at` is
the clamp of `now - fetched_at + progress_ms` to the interval from 0 to `d`; it
lies in that interval and never decreases as `now` grows.  With a progress of
10000 and a duration of 200000, 5000 ms after the anchor it is 15000. -/
theorem tick_progress_clamp (s : Snapshot) (d fetched_at t : Int)
    (hd : s.duration_ms = some d) (hd0 : 0 ≤ d) :
    (∀ now, (tick (stateOf s fetched_at t) now).progress
        = clamp (now - fetched_at + s.progress_ms) 0 d) ∧
      (∀ now, 0 ≤ (tick (stateOf s fetched_at t) now).progress ∧
        (tick (stateOf s fetched_at t) now).progress ≤ d) ∧
      (∀ now1 now2, now1 ≤ now2 →
        (tick (stateOf s fetched_at t) now1).progress
          ≤ (tick (stateOf s fetched_at t) now2).progress) ∧
      (s.progress_ms = 10000 → d = 200000 →
        (tick (stateOf s fetched_at t) (fetched_at + 5000)).progress = 15000) := by
  refine ⟨?_, ?_, ?_, ?_⟩
  · intro now
    simp only [tick, stateOf, orZero, numOr, clamp, hd]
    simp only [bne_iff_ne, ne_eq, ite_not, max_def, min_def]
    split_ifs <;> omega
  · intro now
    simp only [tick, stateOf, orZero, numOr, hd]
    simp only [bne_iff_ne, ne_eq, ite_not, max_def, min_def]
    split_ifs <;> omega
  · intro now1 now2 h
    simp only [tick, stateOf, orZero, numOr, hd]
    simp only [bne_iff_ne, ne_eq, ite_not, max_def, min_def]
    split_ifs <;> omega
  · intro h1 h2
    simp only [tick, stateOf, orZero, numOr, hd]
    simp only [bne_iff_ne, ne_eq, ite_not, max_def, min_def]
    split_ifs <;> omega

/-- The snapshot of the specification: progress 10000, duration 200000, the
anchor at instant 7, read 5000 ms later. -/
theorem tick_progress_clamp_witness :
    (tick (stateOf ⟨true, 10000, some 200000, ⟨none, none, "", none, none, none⟩, none, 7⟩
        7 7) (7 + 5000)).progress = 15000 :=
  (tick_progress_clamp ⟨true, 10000, some 200000, ⟨none, none, "", none, none, none⟩, none, 7⟩
    200000 7 7 rfl (by decide)).2.2.2 rfl rfl

end BlobyWeb
